import Mathlib

/-!
Verification of the ivt-pipeline-racmo-arctic repository: a shallow embedding
of its two scripts, `create_level_bounds.py` (the Bounds Generator) and
`levels_check.py` (the Bounds Validator), together with theorems settling the
specification's claims.

Numeric values are modelled as rationals.  The scripts' constants are small
integers, exactly representable both in IEEE float32 (the dtype of the numpy
source arrays) and in IEEE float64 (the dtype the variables are stored with);
the rounding functions below make that exactness a provable fact rather than
an assumption.
-/

/-- Bit length of a natural number, computed with explicit fuel so that the
recursion is structural. -/
def bitLenFuel : ℕ → ℕ → ℕ
  | 0, _ => 0
  | fuel + 1, n => if n = 0 then 0 else bitLenFuel fuel (n / 2) + 1

/-- Bit length of a natural number (0 for 0). -/
def bitLength (n : ℕ) : ℕ := bitLenFuel n n

/-- Round a natural number to `p` significand bits, ties to even: the rounding
IEEE binary floating point applies to an integer that needs more than `p`
bits.  Numbers already representable in `p` bits are unchanged. -/
def roundPrec (p n : ℕ) : ℕ :=
  if n < 2 ^ p then n
  else
    let s := bitLength n - p
    let q := n / 2 ^ s
    let r := n % 2 ^ s
    let h := 2 ^ (s - 1)
    if r < h then q * 2 ^ s
    else if h < r then (q + 1) * 2 ^ s
    else if q % 2 = 0 then q * 2 ^ s else (q + 1) * 2 ^ s

/-- Rounding a natural number to float32 precision (24 significand bits). -/
def f32Nat (n : ℕ) : ℕ := roundPrec 24 n

/-- Rounding a natural number to float64 precision (53 significand bits). -/
def f64Nat (n : ℕ) : ℕ := roundPrec 53 n

/-- The integer literals of `plev_vals` in `create_level_bounds.py` line 54. -/
def plevValsLit : List ℕ :=
  [100000, 92500, 85000, 70000, 60000, 50000, 40000, 30000]

/-- The integer literals of `plev_bounds_vals` in `create_level_bounds.py`
lines 55-64. -/
def plevBoundsLit : List (List ℕ) :=
  [[101325, 96250],
   [96250, 88750],
   [88750, 72500],
   [72500, 65000],
   [65000, 55000],
   [55000, 45000],
   [45000, 35000],
   [35000, 25000]]

/-- `plev_vals`: the numpy array of `create_level_bounds.py` line 54, a
float32 array, i.e. each literal rounded to 24 significand bits. -/
def plev_vals : List ℚ := plevValsLit.map fun n => ((f32Nat n : ℕ) : ℚ)

/-- `plev_bounds_vals`: the numpy array of `create_level_bounds.py` lines
55-64, a float32 array of pairs. -/
def plev_bounds_vals : List (List ℚ) :=
  plevBoundsLit.map (List.map fun n => ((f32Nat n : ℕ) : ℚ))

/-- The dtype string of the source numpy array `plev_vals` (line 54). -/
def plevValsDtype : String := "float32"

/-- The dtype string of the source numpy array `plev_bounds_vals` (line 55). -/
def plevBoundsValsDtype : String := "float32"

/-- The values of the on-file `plev` variable: the float32 inputs written
into a variable of dtype f8, i.e. widened to float64 (lines 70 and 73). -/
def storedPlev : List ℚ :=
  plevValsLit.map fun n => ((f64Nat (f32Nat n) : ℕ) : ℚ)

/-- The values of the on-file `plev_bounds` variable (lines 71 and 74). -/
def storedPlevBounds : List (List ℚ) :=
  plevBoundsLit.map (List.map fun n => ((f64Nat (f32Nat n) : ℕ) : ℚ))

/-- Payload of a NetCDF variable: the Generator writes a 1-D array (over
`plev`) and a 2-D array (over `plev` × `bnds`); only arrays of these two
shapes are modelled. -/
inductive NcData where
  | oneD : List ℚ → NcData
  | twoD : List (List ℚ) → NcData
deriving DecidableEq

/-- A NetCDF variable: dtype string, dimension names, payload and
per-variable attributes. -/
structure NcVarDecl where
  dtype : String
  dimNames : List String
  data : NcData
  attrs : List (String × String)
deriving DecidableEq

/-- A NetCDF file as the two scripts use it: named dimensions, named
variables, and global attributes. -/
structure NcFile where
  dims : List (String × ℕ)
  vars : List (String × NcVarDecl)
  globalAttrs : List (String × String)
deriving DecidableEq

/-- Look up a variable's payload by name, as `ds.variables[name][:]` does
(`levels_check.py` lines 7-8); `none` models the fatal KeyError. -/
def varData (f : NcFile) (name : String) : Option NcData :=
  (f.vars.lookup name).map NcVarDecl.data

/-- The file written by the Generator's `with Dataset(...)` block,
`create_level_bounds.py` lines 66-85: dimensions `plev` (length of
`plev_vals`) and `bnds` (2); variables `plev` (f8, 1-D) and `plev_bounds`
(f8, 2-D); the seven attributes on `plev`; the global `history` string. -/
def level_bounds_nc : NcFile where
  dims := [("plev", plev_vals.length), ("bnds", 2)]
  vars :=
    [("plev",
      { dtype := "f8"
        dimNames := ["plev"]
        data := .oneD storedPlev
        attrs :=
          [("standard_name", "air_pressure"),
           ("long_name", "Pressure Level"),
           ("units", "Pa"),
           ("positive", "down"),
           ("axis", "Z"),
           ("_CoordinateAxisType", "Pressure"),
           ("bounds", "plev_bounds")] }),
     ("plev_bounds",
      { dtype := "f8"
        dimNames := ["plev", "bnds"]
        data := .twoD storedPlevBounds
        attrs := [] })]
  globalAttrs :=
    [("history", "Created with custom python script on YYYY-MM-DD")]

/-- `np.mean` over a row (`levels_check.py` line 12): sum divided by length.
Faithful for the nonempty rows the scripts produce. -/
def npMean (row : List ℚ) : ℚ := row.sum / (row.length : ℚ)

/-- Left-pad a string with spaces to the given width, as Python's
fixed-width numeric field does (strings wider than the field are kept). -/
def padLeft (w : ℕ) (s : String) : String :=
  String.mk (List.replicate (w - s.length) ' ') ++ s

/-- Round `q * 10` to an integer, ties to even: the rounding Python's
one-decimal fixed format applies to the value's tenths. -/
def roundTenths (q : ℚ) : ℤ :=
  let t := q * 10
  let f := t.floor
  let r := t - (f : ℚ)
  if r < 1 / 2 then f
  else if 1 / 2 < r then f + 1
  else if f % 2 = 0 then f else f + 1

/-- Decimal rendering of a rational with exactly one decimal place, as
Python's `:.1f` format renders the corresponding float. -/
def decStr1 (q : ℚ) : String :=
  let n := roundTenths q
  let sign := if n < 0 then "-" else ""
  let m := n.natAbs
  sign ++ toString (m / 10) ++ "." ++ toString (m % 10)

/-- One diagnostic line of the Validator, `levels_check.py` line 14:
`f"plev: \x7bplev[i]:8.1f\x7d | midpoint: \x7bmidpoint:8.1f\x7d | diff: \x7bdiff:6.1f\x7d"`. -/
def formatLine (p m d : ℚ) : String :=
  "plev: " ++ padLeft 8 (decStr1 p) ++ " | midpoint: " ++ padLeft 8 (decStr1 m)
    ++ " | diff: " ++ padLeft 6 (decStr1 d)

/-- The line the Validator prints for level `p` with bounds row `row`
(`levels_check.py` lines 12-14): midpoint is `np.mean(row)`, diff is the
absolute difference between midpoint and level. -/
def lineFor (p : ℚ) (row : List ℚ) : String :=
  formatLine p (npMean row) |npMean row - p|

/-- Outcome of a Validator run: the lines printed, tagged with whether the
run completed or aborted with an uncaught exception after printing them. -/
inductive RunResult where
  | ok : List String → RunResult
  | fatal : List String → RunResult
deriving DecidableEq

/-- The lines printed during a run, completed or not. -/
def linesOf : RunResult → List String
  | .ok ls => ls
  | .fatal ls => ls

/-- Whether the run aborted. -/
def isFatal : RunResult → Bool
  | .ok _ => false
  | .fatal _ => true

/-- The Validator's loop, `levels_check.py` lines 11-14: for each index `i`
in `range(len(plev))`, index `plev_bounds[i]`, compute midpoint and diff and
print one line.  Indexing past the end of `plev_bounds` raises IndexError
before that iteration prints, aborting the run with the lines printed so
far; extra bounds rows beyond `len(plev)` are ignored. -/
def runCheck : List ℚ → List (List ℚ) → RunResult
  | [], _ => .ok []
  | _ :: _, [] => .fatal []
  | p :: ps, row :: rows =>
    match runCheck ps rows with
    | .ok ls => .ok (lineFor p row :: ls)
    | .fatal ls => .fatal (lineFor p row :: ls)

/-- A full Validator run on a file, `levels_check.py` lines 5-14: read
`plev` and `plev_bounds` in full (a missing variable raises KeyError before
any line is printed), then run the loop. -/
def validatorRun (f : NcFile) : RunResult :=
  match varData f "plev", varData f "plev_bounds" with
  | some (.oneD plev), some (.twoD bounds) => runCheck plev bounds
  | _, _ => .fatal []

/-- A file exposing `plev` with two levels but `plev_bounds` with a single
bounds row: a structurally mismatched input for the Validator. -/
def mismatchFile : NcFile where
  dims := [("plev", 2), ("bnds", 2)]
  vars :=
    [("plev",
      { dtype := "f8", dimNames := ["plev"],
        data := .oneD [100000, 92500], attrs := [] }),
     ("plev_bounds",
      { dtype := "f8", dimNames := ["plev", "bnds"],
        data := .twoD [[101325, 96250]], attrs := [] })]
  globalAttrs := []

/-- A file exposing `plev` but missing the `plev_bounds` variable. -/
def noBoundsFile : NcFile where
  dims := [("plev", 8)]
  vars :=
    [("plev",
      { dtype := "f8", dimNames := ["plev"],
        data := .oneD storedPlev, attrs := [] })]
  globalAttrs := []

/-- A file-handle-relevant operation performed by one of the scripts. -/
inductive ScriptOp where
  | openWrite : ScriptOp
  | openRead : ScriptOp
  | closeFile : ScriptOp
  | writeVar : String → ScriptOp
  | readVar : String → ScriptOp
  | printLine : ScriptOp
deriving DecidableEq

/-- Operation trace of a successful Generator run, `create_level_bounds.py`
lines 66-85: the `with Dataset(..., 'w')` statement opens the file, the body
writes the two variables, and leaving the `with` block closes the handle. -/
def generatorOps : List ScriptOp :=
  [.openWrite, .writeVar "plev", .writeVar "plev_bounds", .closeFile]

/-- Operation trace of a Generator run whose body raises: the `with`
statement still closes the handle on the exceptional exit. -/
def generatorOpsOnError : List ScriptOp := [.openWrite, .closeFile]

/-- Operation trace of a Validator run printing `n` lines,
`levels_check.py` lines 5-14: `ds = Dataset(...)` opens the file, both
variables are read, one line per level is printed; the script contains no
`ds.close()` and no `with` block, so no close operation occurs. -/
def validatorOps (n : ℕ) : List ScriptOp :=
  [.openRead, .readVar "plev", .readVar "plev_bounds"] ++
    List.replicate n .printLine

/-- Number of open operations in a trace. -/
def opensOf (t : List ScriptOp) : ℕ :=
  t.count .openWrite + t.count .openRead

/-- Number of close operations in a trace. -/
def closesOf (t : List ScriptOp) : ℕ := t.count .closeFile

/-- Every open in the trace is matched by a close. -/
def everyOpenClosed (t : List ScriptOp) : Bool :=
  closesOf t == opensOf t


unseal Rat.mul Rat.add Rat.sub Rat.inv

theorem runCheck_cons_lines (p : ℚ) (ps : List ℚ) (row : List ℚ)
    (rows : List (List ℚ)) :
    linesOf (runCheck (p :: ps) (row :: rows)) =
      lineFor p row :: linesOf (runCheck ps rows) := by
  cases h : runCheck ps rows <;> simp [runCheck, h, linesOf]

theorem runCheck_ok_of_le (plev : List ℚ) (bounds : List (List ℚ))
    (h : plev.length ≤ bounds.length) :
    runCheck plev bounds = .ok (List.zipWith lineFor plev bounds) := by
  induction plev generalizing bounds with
  | nil => simp [runCheck]
  | cons p ps ih =>
    cases bounds with
    | nil => simp at h
    | cons row rows =>
      have h' : ps.length ≤ rows.length := by simpa using h
      simp [runCheck, ih rows h']

theorem runCheck_fatal_of_lt (plev : List ℚ) (bounds : List (List ℚ))
    (h : bounds.length < plev.length) :
    runCheck plev bounds = .fatal (List.zipWith lineFor plev bounds) := by
  induction plev generalizing bounds with
  | nil => simp at h
  | cons p ps ih =>
    cases bounds with
    | nil => simp [runCheck]
    | cons row rows =>
      have h' : rows.length < ps.length := by simpa using h
      simp [runCheck, ih rows h']

theorem linesOf_runCheck_get (plev : List ℚ) (bounds : List (List ℚ))
    (i : ℕ) (row : List ℚ) (hi : i < plev.length)
    (hb : bounds.get? i = some row) :
    (linesOf (runCheck plev bounds)).get? i =
      some (lineFor (plev.getD i 0) row) := by
  induction plev generalizing bounds i with
  | nil => simp at hi
  | cons p ps ih =>
    cases bounds with
    | nil => simp at hb
    | cons r rows =>
      cases i with
      | zero =>
        simp only [List.get?_cons_zero, Option.some.injEq] at hb
        subst hb
        simp [runCheck_cons_lines]
      | succ n =>
        have hb' : rows.get? n = some row := by simpa using hb
        have hi' : n < ps.length := by simpa using hi
        rw [runCheck_cons_lines, List.get?_cons_succ, List.getD_cons_succ]
        exact ih rows n hi' hb'

/-- C1.  Round-trip: reading `plev` and `plev_bounds` back from the freshly
generated file yields exactly the values of the input constants `plev_vals`
and `plev_bounds_vals`, element by element and in order — the float32
inputs and their float64 widening coincide with the integer literals, so
the chain literal → float32 array → f8 variable → read-back is exact. -/
theorem roundtrip_read_eq_constants :
    varData level_bounds_nc "plev" = some (.oneD storedPlev) ∧
    varData level_bounds_nc "plev_bounds" = some (.twoD storedPlevBounds) ∧
    storedPlev = plev_vals ∧
    storedPlevBounds = plev_bounds_vals ∧
    plev_vals = plevValsLit.map (fun n => ((n : ℕ) : ℚ)) ∧
    plev_bounds_vals = plevBoundsLit.map (List.map fun n => ((n : ℕ) : ℚ)) := by
  decide

/-- C2.  For every index `i` with a 2-element bounds row `[a, b]`, the
Validator's midpoint `np.mean` over that row equals `(a + b) / 2` exactly,
and the `i`-th printed line reports that midpoint together with the
absolute difference between it and `level[i]`. -/
theorem validator_midpoint_diff_correct (plev : List ℚ)
    (bounds : List (List ℚ)) (i : ℕ) (a b : ℚ) (hi : i < plev.length)
    (hb : bounds.get? i = some [a, b]) :
    npMean [a, b] = (a + b) / 2 ∧
    (linesOf (runCheck plev bounds)).get? i =
      some (formatLine (plev.getD i 0) ((a + b) / 2)
        |(a + b) / 2 - plev.getD i 0|) := by
  have hm : npMean [a, b] = (a + b) / 2 := by
    simp [npMean]
  refine ⟨hm, ?_⟩
  rw [linesOf_runCheck_get plev bounds i [a, b] hi hb, lineFor, hm]

theorem validator_midpoint_diff_correct_witness :
    0 < ([(100000 : ℚ), 92500]).length ∧
    ([[(101325 : ℚ), 96250], [96250, 88750]]).get? 0 = some [101325, 96250] ∧
    (npMean [(101325 : ℚ), 96250] = (101325 + 96250) / 2 ∧
      (linesOf (runCheck [(100000 : ℚ), 92500]
          [[101325, 96250], [96250, 88750]])).get? 0 =
        some (formatLine (([(100000 : ℚ), 92500]).getD 0 0)
          ((101325 + 96250) / 2)
          |(101325 + 96250) / 2 - ([(100000 : ℚ), 92500]).getD 0 0|)) :=
  ⟨by decide, by decide,
    validator_midpoint_diff_correct [100000, 92500]
      [[101325, 96250], [96250, 88750]] 0 101325 96250 (by decide) (by decide)⟩

/-- C3.  On any file whose level sequence starts with 100000 and whose
bounds row 0 is [101325, 96250], the Validator's first printed line is
`plev: 100000.0 | midpoint:  98787.5 | diff: 1212.5`, each number a
fixed-width field with one decimal place. -/
theorem validator_first_line_scenario_a (f : NcFile) (rest : List ℚ)
    (brest : List (List ℚ))
    (h1 : varData f "plev" = some (.oneD (100000 :: rest)))
    (h2 : varData f "plev_bounds" = some (.twoD ([101325, 96250] :: brest))) :
    (linesOf (validatorRun f)).head? =
      some "plev: 100000.0 | midpoint:  98787.5 | diff: 1212.5" := by
  unfold validatorRun
  rw [h1, h2]
  rw [show (match some (NcData.oneD (100000 :: rest)),
        some (NcData.twoD ([101325, 96250] :: brest)) with
      | some (.oneD plev), some (.twoD bounds) => runCheck plev bounds
      | _, _ => RunResult.fatal []) =
      runCheck (100000 :: rest) ([101325, 96250] :: brest) from rfl]
  rw [runCheck_cons_lines]
  rw [List.head?_cons]
  decide

theorem validator_first_line_scenario_a_witness :
    (linesOf (validatorRun level_bounds_nc)).head? =
      some "plev: 100000.0 | midpoint:  98787.5 | diff: 1212.5" :=
  validator_first_line_scenario_a level_bounds_nc
    [92500, 85000, 70000, 60000, 50000, 40000, 30000]
    [[96250, 88750], [88750, 72500], [72500, 65000], [65000, 55000],
     [55000, 45000], [45000, 35000], [35000, 25000]]
    (by decide) (by decide)

/-- C4.  The generated file has dimension `plev` of size N (the number of
configured levels, 8) and dimension `bnds` of size 2, and both variables
are declared with dtype f8 (64-bit float) although the input numpy arrays
are float32. -/
theorem generator_dims_and_dtype :
    level_bounds_nc.dims.lookup "plev" = some plev_vals.length ∧
    plev_vals.length = 8 ∧
    level_bounds_nc.dims.lookup "bnds" = some 2 ∧
    (level_bounds_nc.vars.lookup "plev").map NcVarDecl.dtype = some "f8" ∧
    (level_bounds_nc.vars.lookup "plev_bounds").map NcVarDecl.dtype
      = some "f8" ∧
    plevValsDtype = "float32" ∧ plevBoundsValsDtype = "float32" := by
  decide

/-- C5, counterexample.  On the structurally mismatched file whose `plev`
holds two levels but whose `plev_bounds` holds a single row, the Validator
does fail fatally, but only after printing the diagnostic line for row 0 —
a partial sequence of lines is emitted, contrary to the claim. -/
theorem validator_partial_lines_on_mismatch :
    validatorRun mismatchFile =
      .fatal ["plev: 100000.0 | midpoint:  98787.5 | diff: 1212.5"] := by
  decide

/-- C5, amended.  When either variable is missing, the Validator aborts
before printing any line; when `plev_bounds` has fewer rows than `plev`,
it aborts mid-iteration after printing one line per bounds row present. -/
theorem validator_abort_behavior :
    (∀ f : NcFile,
      varData f "plev" = none ∨ varData f "plev_bounds" = none →
      validatorRun f = .fatal []) ∧
    (∀ (plev : List ℚ) (bounds : List (List ℚ)),
      bounds.length < plev.length →
      runCheck plev bounds = .fatal (List.zipWith lineFor plev bounds)) := by
  constructor
  · intro f h
    unfold validatorRun
    cases hp : varData f "plev" with
    | none => rfl
    | some dp =>
      cases hb : varData f "plev_bounds" with
      | none => cases dp <;> rfl
      | some db =>
        rcases h with h | h
        · rw [hp] at h
          exact absurd h (by simp)
        · rw [hb] at h
          exact absurd h (by simp)
  · intro plev bounds h
    exact runCheck_fatal_of_lt plev bounds h

theorem validator_abort_behavior_witness :
    validatorRun noBoundsFile = .fatal [] ∧
    runCheck [(100000 : ℚ), 92500] [[101325, 96250]] =
      .fatal (List.zipWith lineFor [(100000 : ℚ), 92500] [[101325, 96250]]) :=
  ⟨validator_abort_behavior.1 noBoundsFile (Or.inr (by decide)),
   validator_abort_behavior.2 [100000, 92500] [[101325, 96250]] (by decide)⟩

/-- C7.  On a well-formed file (both variables present, at least one bounds
row per level), the Validator completes, printing exactly one line per
level, in the stored order, and produces no file. -/
theorem validator_one_line_per_level (f : NcFile) (plev : List ℚ)
    (bounds : List (List ℚ))
    (h1 : varData f "plev" = some (.oneD plev))
    (h2 : varData f "plev_bounds" = some (.twoD bounds))
    (hlen : plev.length ≤ bounds.length) :
    validatorRun f = .ok (List.zipWith lineFor plev bounds) ∧
    (List.zipWith lineFor plev bounds).length = plev.length := by
  constructor
  · unfold validatorRun
    rw [h1, h2]
    exact runCheck_ok_of_le plev bounds hlen
  · rw [List.length_zipWith]
    omega

theorem validator_one_line_per_level_witness :
    validatorRun level_bounds_nc =
      .ok (List.zipWith lineFor storedPlev storedPlevBounds) ∧
    (List.zipWith lineFor storedPlev storedPlevBounds).length
      = storedPlev.length :=
  validator_one_line_per_level level_bounds_nc storedPlev storedPlevBounds
    (by decide) (by decide) (by decide)

/-- C8, counterexample.  The Validator's operation trace (here on the
8-level file) contains an open with no matching close: `levels_check.py`
never closes its Dataset handle. -/
theorem validator_open_without_close :
    everyOpenClosed (validatorOps 8) = false ∧
    opensOf (validatorOps 8) = 1 ∧ closesOf (validatorOps 8) = 0 := by
  decide

/-- C8, amended.  The Generator holds its handle inside a `with` block and
closes it on both the normal and the error exit; the Validator opens its
file and never explicitly closes it — the handle is released only at
process teardown, not by a close in the script. -/
theorem file_handle_discipline :
    everyOpenClosed generatorOps = true ∧
    everyOpenClosed generatorOpsOnError = true ∧
    ∀ n : ℕ, closesOf (validatorOps n) = 0 ∧ opensOf (validatorOps n) = 1 := by
  refine ⟨by decide, by decide, fun n => ?_⟩
  constructor
  · simp [validatorOps, closesOf, List.count_replicate]
  · simp [validatorOps, opensOf, List.count_replicate]

/-- C9.  The hardcoded constants satisfy the unchecked data-model
invariant: both sequences have length 8 and every bounds pair brackets its
level, upper bound ≥ level ≥ lower bound. -/
theorem constants_bracket_invariant :
    plev_vals.length = plev_bounds_vals.length ∧
    plev_vals.length = 8 ∧
    ∀ i : Fin 8,
      (plev_bounds_vals.getD (i : ℕ) []).getD 0 0 ≥ plev_vals.getD (i : ℕ) 0 ∧
      plev_vals.getD (i : ℕ) 0 ≥ (plev_bounds_vals.getD (i : ℕ) []).getD 1 0 := by
  decide

/-- C10.  The hardcoded layers are strictly ordered and contiguous:
`plev_vals` strictly decreases, each bounds pair has upper > lower, and
the lower bound of each pair equals the upper bound of the next. -/
theorem constants_ordered_contiguous :
    (∀ i : Fin 7,
      plev_vals.getD (i : ℕ) 0 > plev_vals.getD ((i : ℕ) + 1) 0) ∧
    (∀ i : Fin 8,
      (plev_bounds_vals.getD (i : ℕ) []).getD 0 0 >
        (plev_bounds_vals.getD (i : ℕ) []).getD 1 0) ∧
    (∀ i : Fin 7,
      (plev_bounds_vals.getD (i : ℕ) []).getD 1 0 =
        (plev_bounds_vals.getD ((i : ℕ) + 1) []).getD 0 0) := by
  decide
